import Mathlib

set_option autoImplicit false
set_option maxRecDepth 8192

/-!
Verification of the CodaLab Worksheets deployment script
(`src/deployment/fabfile.py`): a shallow embedding of the deployment
configuration resolution (`DeploymentConfig`), the website-config derivation
(`getWebsiteConfig`) and the task sequencing (`install_mysql`, `supervisor`,
`maintenance`, `migrate_db`, `deploy`, `_deploy`), together with theorems
about the spec's claims.

The YAML configuration is modelled as nested structures whose fields are
`Option`-valued: `none` stands for an absent key.  A Python dictionary
lookup `d['k']` that can raise `KeyError` is modelled as an `Except` value
(`Err.keyError "k"`).  Remote commands issued through Fabric's `run`, `sudo`
and `put` are modelled as a trace of `Cmd` values; a task returns the trace
of commands it issued before finishing or failing.
-/

namespace CodalabDeploy

/-- Errors a task can raise: a `KeyError` from a missing configuration key, a
generic `raise Exception`, a `raise ValueError`, a failed Fabric
`require(...)`, and `sys.exit(code)`. -/
inductive Err where
  | keyError (key : String)
  | exception (msg : String)
  | valueError (msg : String)
  | requireMissing (key : String)
  | exit (code : Nat)
deriving DecidableEq

/-- Python dictionary lookup `d[key]`: the value when the key is present,
`KeyError` otherwise. -/
def lookupKey {α : Type} (key : String) : Option α → Except Err α
  | some v => Except.ok v
  | none => Except.error (Err.keyError key)

/-- The `deployment.service-global.certificate` block. -/
structure CertificateInfo where
  algorithm : Option String
  thumbprint : Option String
  filename : Option String
  keyFilename : Option String
  format : Option String
  password : Option String
deriving DecidableEq

/-- The `deployment.service-global.vm` block (login credentials). -/
structure VmGlobalInfo where
  username : Option String
  password : Option String
deriving DecidableEq

/-- The `deployment.service-global.email` block. -/
structure EmailInfo where
  host : Option String
  user : Option String
  password : Option String
deriving DecidableEq

/-- The per-label `django` block (configuration name and secrets). -/
structure DjangoInfo where
  configuration : Option String
  secretKey : Option String
deriving DecidableEq

/-- The `deployment.service-global` section. -/
structure ServiceGlobal where
  servicePrefix : Option String
  certificate : Option CertificateInfo
  vm : Option VmGlobalInfo
  email : Option EmailInfo
  adminEmail : Option String
deriving DecidableEq

/-- The per-label `vm` block. -/
structure VmInfo where
  osImage : Option String
  count : Option Nat
  roleSize : Option String
  sshPort : Option Nat
deriving DecidableEq

/-- A `git` or `git-bundles` block. -/
structure GitInfo where
  user : Option String
  repo : Option String
  tag : Option String
deriving DecidableEq

/-- The per-label `database` block. -/
structure DatabaseInfo where
  adminPassword : Option String
  bundleDbName : Option String
  bundleUser : Option String
  bundlePassword : Option String
deriving DecidableEq

/-- The optional per-label `ssl` block. -/
structure SslInfo where
  filename : Option String
  keyFilename : Option String
  rewriteHosts : Option (List String)
deriving DecidableEq

/-- One entry of `deployment.service-configurations`. -/
structure ServiceConfiguration where
  vm : Option VmInfo
  git : Option GitInfo
  gitBundles : Option GitInfo
  database : Option DatabaseInfo
  ssl : Option SslInfo
  django : Option DjangoInfo
deriving DecidableEq

/-- `DeploymentConfig(label, filename)` after loading the YAML file: the
label, the `service-global` section and the label's entry of
`service-configurations`. -/
structure DeploymentConfig where
  label : String
  svcGlobal : ServiceGlobal
  svc : ServiceConfiguration
deriving DecidableEq

namespace DeploymentConfig

/-- `getServicePrefix`: `self._svc_global['prefix']`. -/
def getServicePrefix (c : DeploymentConfig) : Except Err String :=
  lookupKey "prefix" c.svcGlobal.servicePrefix

/-- `getServiceCertificateAlgorithm`: `self._svc_global['certificate']['algorithm']`. -/
def getServiceCertificateAlgorithm (c : DeploymentConfig) : Except Err String := do
  let cert ← lookupKey "certificate" c.svcGlobal.certificate
  lookupKey "algorithm" cert.algorithm

/-- `getServiceCertificateKeyFilename`: `self._svc_global['certificate']['key-filename']`. -/
def getServiceCertificateKeyFilename (c : DeploymentConfig) : Except Err String := do
  let cert ← lookupKey "certificate" c.svcGlobal.certificate
  lookupKey "key-filename" cert.keyFilename

/-- `getVirtualMachineLogonUsername`: `self._svc_global['vm']['username']`. -/
def getVirtualMachineLogonUsername (c : DeploymentConfig) : Except Err String := do
  let vm ← lookupKey "vm" c.svcGlobal.vm
  lookupKey "username" vm.username

/-- `getVirtualMachineLogonPassword`: `self._svc_global['vm']['password']`. -/
def getVirtualMachineLogonPassword (c : DeploymentConfig) : Except Err String := do
  let vm ← lookupKey "vm" c.svcGlobal.vm
  lookupKey "password" vm.password

/-- `getEmailInfo`: `self._svc_global['email']`. -/
def getEmailInfo (c : DeploymentConfig) : Except Err EmailInfo :=
  lookupKey "email" c.svcGlobal.email

/-- `getAdminEmail`: `self._svc_global['admin-email']`. -/
def getAdminEmail (c : DeploymentConfig) : Except Err String :=
  lookupKey "admin-email" c.svcGlobal.adminEmail

/-- `getServiceName`: `"{0}{1}".format(self.getServicePrefix(), self.label)`. -/
def getServiceName (c : DeploymentConfig) : Except Err String := do
  let p ← getServicePrefix c
  pure (p ++ c.label)

/-- `getServiceInstanceCount`: `self._svc['vm']['count']`. -/
def getServiceInstanceCount (c : DeploymentConfig) : Except Err Nat := do
  let vm ← lookupKey "vm" c.svc.vm
  lookupKey "count" vm.count

/-- `getServiceInstanceSshPort`: `self._svc['vm']['ssh-port']`. -/
def getServiceInstanceSshPort (c : DeploymentConfig) : Except Err Nat := do
  let vm ← lookupKey "vm" c.svc.vm
  lookupKey "ssh-port" vm.sshPort

/-- `getGitUser`: `self._svc['git']['user']`. -/
def getGitUser (c : DeploymentConfig) : Except Err String := do
  let g ← lookupKey "git" c.svc.git
  lookupKey "user" g.user

/-- `getGitRepo`: `self._svc['git']['repo']`. -/
def getGitRepo (c : DeploymentConfig) : Except Err String := do
  let g ← lookupKey "git" c.svc.git
  lookupKey "repo" g.repo

/-- `getGitTag`: `self._svc['git']['tag']`. -/
def getGitTag (c : DeploymentConfig) : Except Err String := do
  let g ← lookupKey "git" c.svc.git
  lookupKey "tag" g.tag

/-- `getDjangoInfo`: `self._svc['django']`. -/
def getDjangoInfo (c : DeploymentConfig) : Except Err DjangoInfo :=
  lookupKey "django" c.svc.django

/-- `getDatabaseAdminPassword`: `self._svc['database']['admin_password']`. -/
def getDatabaseAdminPassword (c : DeploymentConfig) : Except Err String := do
  let db ← lookupKey "database" c.svc.database
  lookupKey "admin_password" db.adminPassword

/-- `getSslCertificatePath`:
`self._svc['ssl']['filename'] if 'ssl' in self._svc else ""`.  When the `ssl`
block is present its `filename` key is looked up (and can raise `KeyError`). -/
def getSslCertificatePath (c : DeploymentConfig) : Except Err String :=
  match c.svc.ssl with
  | some ssl => lookupKey "filename" ssl.filename
  | none => Except.ok ""

/-- `getSslCertificateKeyPath`:
`self._svc['ssl']['key-filename'] if 'ssl' in self._svc else ""`. -/
def getSslCertificateKeyPath (c : DeploymentConfig) : Except Err String :=
  match c.svc.ssl with
  | some ssl => lookupKey "key-filename" ssl.keyFilename
  | none => Except.ok ""

/-- `os.path.basename`: the component after the last slash, computed by a
left fold that restarts at every `/`. -/
def basename (p : String) : String :=
  String.mk (p.data.foldl (fun acc ch => if ch = '/' then [] else acc ++ [ch]) [])

/-- `getSslCertificateInstalledPath`: `/etc/ssl/certs/<basename>` when the
certificate path is non-empty, `""` otherwise. -/
def getSslCertificateInstalledPath (c : DeploymentConfig) : Except Err String := do
  let p ← getSslCertificatePath c
  if p.length > 0 then
    pure ("/etc/ssl/certs/" ++ basename p)
  else
    pure ""

/-- `getSslCertificateKeyInstalledPath`: `/etc/ssl/private/<basename>` when
the key path is non-empty, `""` otherwise. -/
def getSslCertificateKeyInstalledPath (c : DeploymentConfig) : Except Err String := do
  let p ← getSslCertificateKeyPath c
  if p.length > 0 then
    pure ("/etc/ssl/private/" ++ basename p)
  else
    pure ""

/-- `getSslRewriteHosts`: the `ssl.rewrite-hosts` list when both keys are
present, `[]` otherwise.  This accessor never raises. -/
def getSslRewriteHosts (c : DeploymentConfig) : List String :=
  match c.svc.ssl with
  | some ssl => ssl.rewriteHosts.getD []
  | none => []

/-- `getWebHostnames`: `'{0}.cloudapp.net:{1}'.format(service_name,
str(ssh_port + vm_number))` for `vm_number` in `range(1, 1 + count)`. -/
def getWebHostnames (c : DeploymentConfig) : Except Err (List String) := do
  let serviceName ← getServiceName c
  let count ← getServiceInstanceCount c
  let sshPort ← getServiceInstanceSshPort c
  let vmNumbers := (List.range count).map (fun i => i + 1)
  pure (vmNumbers.map (fun vmNumber =>
    serviceName ++ ".cloudapp.net:" ++ toString (sshPort + vmNumber)))

/-- `getBundleServiceGitUser`:
`self._svc['git-bundles']['user'] if 'git-bundles' in self._svc else ""`. -/
def getBundleServiceGitUser (c : DeploymentConfig) : Except Err String :=
  match c.svc.gitBundles with
  | some g => lookupKey "user" g.user
  | none => Except.ok ""

/-- `getBundleServiceGitRepo`:
`self._svc['git-bundles']['repo'] if 'git-bundles' in self._svc else ""`. -/
def getBundleServiceGitRepo (c : DeploymentConfig) : Except Err String :=
  match c.svc.gitBundles with
  | some g => lookupKey "repo" g.repo
  | none => Except.ok ""

/-- `getBundleServiceGitTag`:
`self._svc['git-bundles']['tag'] if 'git-bundles' in self._svc else ""`. -/
def getBundleServiceGitTag (c : DeploymentConfig) : Except Err String :=
  match c.svc.gitBundles with
  | some g => lookupKey "tag" g.tag
  | none => Except.ok ""

/-- `getBundleServiceDatabaseName`: `self._svc['database']['bundle_db_name']
if 'bundle_db_name' in self._svc['database'] else ""`.  The `database` block
itself is looked up unconditionally. -/
def getBundleServiceDatabaseName (c : DeploymentConfig) : Except Err String := do
  let db ← lookupKey "database" c.svc.database
  pure (db.bundleDbName.getD "")

/-- `getBundleServiceDatabaseUser`: like `getBundleServiceDatabaseName` for
`bundle_user`. -/
def getBundleServiceDatabaseUser (c : DeploymentConfig) : Except Err String := do
  let db ← lookupKey "database" c.svc.database
  pure (db.bundleUser.getD "")

/-- `getBundleServiceDatabasePassword`: like `getBundleServiceDatabaseName`
for `bundle_password`. -/
def getBundleServiceDatabasePassword (c : DeploymentConfig) : Except Err String := do
  let db ← lookupKey "database" c.svc.database
  pure (db.bundlePassword.getD "")

end DeploymentConfig

open DeploymentConfig

/-- The record written to `~/.codalab/website-config.json`. -/
structure WebsiteConfig where
  ALLOWED_HOSTS : List String
  SSL_PORT : Nat
  SSL_CERTIFICATE : String
  SSL_CERTIFICATE_KEY : String
  SSL_ALLOWED_HOSTS : List String
  django : DjangoInfo
  DJANGO_USE_UWSGI : Bool
deriving DecidableEq

/-- The `allowed_hosts` (and `ssl_allowed_hosts`) value computed by
`getWebsiteConfig`: the configured rewrite hosts followed by
`<serviceName>.cloudapp.net`. -/
def allowedHosts (config : DeploymentConfig) : Except Err (List String) := do
  let serviceName ← getServiceName config
  pure (getSslRewriteHosts config ++ [serviceName ++ ".cloudapp.net"])

/-- The `bundle_auth_scheme` computed inside `getWebsiteConfig`: `"https"`
when the installed SSL certificate path is non-empty, `"http"` otherwise
(the key path is not consulted). -/
def bundleAuthScheme (config : DeploymentConfig) : Except Err String := do
  let installed ← getSslCertificateInstalledPath config
  if installed.length > 0 then
    pure "https"
  else
    pure "http"

/-- The `bundle_auth_host` computed inside `getWebsiteConfig`: the first
allowed host.  The list is non-empty by construction, so `headD` is exact. -/
def bundleAuthHost (config : DeploymentConfig) : Except Err String := do
  let hosts ← allowedHosts config
  pure (hosts.headD "")

/-- The `bundle_auth_url` computed inside `getWebsiteConfig`
(`"{scheme}://{host}"`); the source computes it but never emits it. -/
def bundleAuthUrl (config : DeploymentConfig) : Except Err String := do
  let scheme ← bundleAuthScheme config
  let host ← bundleAuthHost config
  pure (scheme ++ "://" ++ host)

/-- `getWebsiteConfig(config)`: the record written to
`~/.codalab/website-config.json`.  `ALLOWED_HOSTS` and `SSL_ALLOWED_HOSTS`
are the same list; `SSL_PORT` is the constant 443. -/
def getWebsiteConfig (config : DeploymentConfig) : Except Err WebsiteConfig := do
  let hosts ← allowedHosts config
  let sslCert ← getSslCertificateInstalledPath config
  let sslKey ← getSslCertificateKeyInstalledPath config
  let dj ← getDjangoInfo config
  pure { ALLOWED_HOSTS := hosts
         SSL_PORT := 443
         SSL_CERTIFICATE := sslCert
         SSL_CERTIFICATE_KEY := sslKey
         SSL_ALLOWED_HOSTS := hosts
         django := dj
         DJANGO_USE_UWSGI := true }

/-! ## Remote commands and the Fabric environment -/

/-- The Fabric context a remote command runs in: the `cd(...)` directories,
the `prefix(...)` shell prefixes (the venv activation) and the exported
`shell_env(...)` variables. -/
structure Ctx where
  dirs : List String
  activate : List String
  shellEnv : List (String × String)
deriving DecidableEq

/-- The empty context: a command issued outside any `with` block. -/
def Ctx.plain : Ctx := ⟨[], [], []⟩

/-- A remote operation issued by a task: `run`, `sudo`, `put` of a local
file, `put` of an in-memory `website-config.json` buffer, or a `run` whose
shell command is `main || alt` (the alternative runs only when the main
command fails). -/
inductive Cmd where
  | run (ctx : Ctx) (text : String)
  | sudo (ctx : Ctx) (text : String)
  | putFile (src : String) (dst : String) (useSudo : Bool)
  | putData (content : WebsiteConfig) (dst : String)
  | runFallback (ctx : Ctx) (mainCmd : String) (altCmd : String)
deriving DecidableEq

/-- The shell text of a command, for the commands that have one; a
`runFallback` is the source's single `run('main || alt')` line. -/
def Cmd.shellText : Cmd → Option String
  | .run _ t => some t
  | .sudo _ t => some t
  | .runFallback _ a b => some (a ++ " || " ++ b)
  | .putFile _ _ _ => none
  | .putData _ _ => none

/-- The shell commands attempted when a `Cmd` executes, given an oracle
saying which shell commands succeed: a `runFallback` attempts its
alternative exactly when the main command fails. -/
def attemptsUnder (oracle : String → Bool) : Cmd → List String
  | .run _ t => [t]
  | .sudo _ t => [t]
  | .runFallback _ a b => if oracle a then [a] else [a, b]
  | .putFile _ _ _ => []
  | .putData _ _ => []

/-- Whether a `Cmd` succeeds under the oracle: a `runFallback` succeeds when
either branch does (shell `||`). -/
def succeedsUnder (oracle : String → Bool) : Cmd → Bool
  | .run _ t => oracle t
  | .sudo _ t => oracle t
  | .runFallback _ a b => oracle a || oracle b
  | .putFile _ _ _ => true
  | .putData _ _ => true

/-- The mutable Fabric `env` after the `config` task ran: the resolved
`DeploymentConfig`, the web role's hosts, the pinned git tags, the Django
settings exported to remote sessions, the accumulated `SHELL_ENV` map and
the `configuration` flag that `require('configuration')` checks. -/
structure FabEnv where
  cfg : DeploymentConfig
  roledefsWeb : List String
  gitCodalabTag : String
  gitCodalabCliTag : String
  djangoSettingsModule : String
  djangoConfiguration : String
  configHttpPort : String
  configServerName : String
  shellEnvMap : List (String × String)
  configured : Bool
deriving DecidableEq

/-- `env.deploy_codalab_worksheets_dir`. -/
def deployCodalabWorksheetsDir : String := "codalab-worksheets"

/-- `env.deploy_codalab_cli_dir`. -/
def deployCodalabCliDir : String := "codalab-cli"

/-- Set one key of a string map (Python `d[k] = v`).  Lookup order is
irrelevant: `envLookup` finds the first matching key. -/
def envSet (m : List (String × String)) (k v : String) : List (String × String) :=
  (k, v) :: m.filter (fun p => p.1 != k)

/-- Lookup in a string map (Python `d[k]` / `k in d`). -/
def envLookup (m : List (String × String)) (k : String) : Option String :=
  (m.find? (fun p => p.1 == k)).map (fun p => p.2)

/-- The `SHELL_ENV` map after `setup_env` ran: the four Django settings
variables are set (Python `dict.update`), everything else is kept. -/
def setupEnvMap (e : FabEnv) : List (String × String) :=
  envSet (envSet (envSet (envSet e.shellEnvMap
    "DJANGO_SETTINGS_MODULE" e.djangoSettingsModule)
    "DJANGO_CONFIGURATION" e.djangoConfiguration)
    "CONFIG_HTTP_PORT" e.configHttpPort)
    "CONFIG_SERVER_NAME" e.configServerName

/-- The `prefix(...)` argument of `setup_env`: the venv activation. -/
def venvActivate : String :=
  "source ~/" ++ deployCodalabWorksheetsDir ++ "/venv/bin/activate"

/-- `setup_env()`: updates `env.SHELL_ENV` and returns the environment, the
shell prefix and the exported variable map. -/
def setup_env (e : FabEnv) : FabEnv × String × List (String × String) :=
  let m := setupEnvMap e
  ({ e with shellEnvMap := m }, venvActivate, m)

instance {ε α : Type} [DecidableEq ε] [DecidableEq α] : DecidableEq (Except ε α) := fun a b =>
  match a, b with
  | Except.ok x, Except.ok y =>
    if h : x = y then isTrue (by rw [h]) else isFalse (fun he => h (Except.ok.inj he))
  | Except.error x, Except.error y =>
    if h : x = y then isTrue (by rw [h]) else isFalse (fun he => h (Except.error.inj he))
  | Except.ok _, Except.error _ => isFalse (fun he => Except.noConfusion he)
  | Except.error _, Except.ok _ => isFalse (fun he => Except.noConfusion he)

/-- What a task invocation produced: the remote commands issued before it
finished or failed, and the final environment or the error raised. -/
structure TaskResult where
  trace : List Cmd
  outcome : Except Err FabEnv
deriving DecidableEq

/-- Sequencing of tasks: when the first fails, its trace stands and the
second never runs; otherwise the traces concatenate. -/
def seqT (r : TaskResult) (k : FabEnv → TaskResult) : TaskResult :=
  match r.outcome with
  | Except.error err => ⟨r.trace, Except.error err⟩
  | Except.ok e => let r2 := k e; ⟨r.trace ++ r2.trace, r2.outcome⟩

/-! ## Tasks -/

/-- The `nginx_restart` task: `sudo('/etc/init.d/nginx restart')`. -/
def nginx_restart : List Cmd :=
  [Cmd.sudo Ctx.plain "/etc/init.d/nginx restart"]

/-- The `supervisor(command)` task: runs the supervisor control commands in
the worksheets checkout under the venv prefix and shell env; an
unrecognized command raises before any remote command. -/
def supervisor (e : FabEnv) (command : String) : TaskResult :=
  let r := setup_env e
  let ctx : Ctx := ⟨[deployCodalabWorksheetsDir], [r.2.1], r.2.2⟩
  if command = "start" then
    ⟨[Cmd.run ctx "mkdir -p ~/logs",
      Cmd.run ctx "supervisord -c codalab/config/generated/supervisor.conf"],
     Except.ok r.1⟩
  else if command = "stop" then
    ⟨[Cmd.run ctx "supervisorctl -c codalab/config/generated/supervisor.conf stop all",
      Cmd.run ctx "supervisorctl -c codalab/config/generated/supervisor.conf shutdown"],
     Except.ok r.1⟩
  else if command = "restart" then
    ⟨[Cmd.run ctx "supervisorctl -c codalab/config/generated/supervisor.conf restart all"],
     Except.ok r.1⟩
  else
    ⟨[], Except.error (Err.exception ("Unknown command: " ++ command))⟩

/-- The `maintenance` mode table: `{'begin': '1', 'end': '0'}`. -/
def maintenanceModes : List (String × String) := [("begin", "1"), ("end", "0")]

/-- The `maintenance(mode)` task: an invalid mode exits the process with
status 1 before any remote command; a valid mode stores its flag in
`SHELL_ENV['MAINTENANCE_MODE']`, regenerates the server config
(`config_gen`) under the exported environment and restarts nginx. -/
def maintenance (e : FabEnv) (mode : String) : TaskResult :=
  match envLookup maintenanceModes mode with
  | none => ⟨[], Except.error (Err.exit 1)⟩
  | some flag =>
    if e.configured then
      let e1 : FabEnv := { e with shellEnvMap := envSet e.shellEnvMap "MAINTENANCE_MODE" flag }
      let r := setup_env e1
      let ctx : Ctx := ⟨[deployCodalabWorksheetsDir, "codalab"], [r.2.1], r.2.2⟩
      ⟨[Cmd.run ctx "python manage.py config_gen"] ++ nginx_restart, Except.ok r.1⟩
    else
      ⟨[], Except.error (Err.requireMissing "configuration")⟩

/-- The mysql-install block of `install_mysql`: install `mysql-server` and
set the root password. -/
def mysqlInstallCmds (dbaPassword : String) : List Cmd :=
  [Cmd.sudo Ctx.plain "DEBIAN_FRONTEND=noninteractive apt-get install -y mysql-server",
   Cmd.sudo Ctx.plain ("mysqladmin -u root password " ++ dbaPassword)]

/-- The bundles-db block of `install_mysql`: one `mysql` invocation whose
`--execute` argument joins the create-database, create-user and
grant-privileges statements with single spaces. -/
def bundlesDbCreateCmds (dbaPassword dbName dbUser dbPassword : String) : List Cmd :=
  [Cmd.run Ctx.plain
    ("mysql --user=root --password=" ++ dbaPassword ++ " --execute=\"" ++
      String.intercalate " "
        ["create database " ++ dbName ++ ";",
         "create user '" ++ dbUser ++ "'@'localhost' IDENTIFIED BY '" ++ dbPassword ++ "';",
         "GRANT ALL PRIVILEGES ON " ++ dbName ++ ".* TO '" ++ dbUser ++
           "'@'localhost' WITH GRANT OPTION;"] ++ "\"")]

/-- The `install_mysql(choice)` task: requires `configuration`, then exactly
one web host, then a valid choice; then installs MySQL and/or creates the
bundle service database as selected. -/
def install_mysql (e : FabEnv) (choice : String) : TaskResult :=
  if ¬ e.configured then
    ⟨[], Except.error (Err.requireMissing "configuration")⟩
  else if e.roledefsWeb.length ≠ 1 then
    ⟨[], Except.error (Err.exception "Task install_mysql requires exactly one web instance.")⟩
  else
    match (if choice = "mysql" then Except.ok ["mysql"]
           else if choice = "bundles_db" then Except.ok ["bundles_db"]
           else if choice = "all" then Except.ok ["mysql", "bundles_db"]
           else Except.error (Err.valueError
             ("Invalid choice: " ++ choice ++
              ". Valid choices are: 'build', 'web' or 'all'.")) :
           Except Err (List String)) with
    | Except.error err => ⟨[], Except.error err⟩
    | Except.ok choices =>
      match getDatabaseAdminPassword e.cfg with
      | Except.error err => ⟨[], Except.error err⟩
      | Except.ok dbaPassword =>
        let installPart : List Cmd :=
          if "mysql" ∈ choices then mysqlInstallCmds dbaPassword else []
        if "bundles_db" ∈ choices then
          match (do
            let dbName ← getBundleServiceDatabaseName e.cfg
            let dbUser ← getBundleServiceDatabaseUser e.cfg
            let dbPassword ← getBundleServiceDatabasePassword e.cfg
            Except.ok (dbName, dbUser, dbPassword) :
            Except Err (String × String × String)) with
          | Except.error err => ⟨installPart, Except.error err⟩
          | Except.ok names =>
            ⟨installPart ++ bundlesDbCreateCmds dbaPassword names.1 names.2.1 names.2.2,
             Except.ok e⟩
        else
          ⟨installPart, Except.ok e⟩

/-- Python's `a or b` on an optional string: the string when it is given and
non-empty, the default otherwise. -/
def pyOr (s : Option String) (dflt : String) : String :=
  match s with
  | some t => if t.length = 0 then dflt else t
  | none => dflt

/-- The `cd(env.deploy_codalab_cli_dir)` context used by `migrate_db` and
the tail of `_deploy`. -/
def cliCtx : Ctx := ⟨[deployCodalabCliDir], [], []⟩

/-- The `migrate_db(alembic_revision, git_tag=None)` task: fetch, checkout
the given tag (or the pinned `env.git_codalab_cli_tag`), pull, then run
`alembic upgrade rev || alembic downgrade rev`. -/
def migrate_db (e : FabEnv) (alembicRevision : String) (gitTag : Option String) : List Cmd :=
  [Cmd.run cliCtx "git fetch",
   Cmd.run cliCtx ("git checkout " ++ pyOr gitTag e.gitCodalabCliTag),
   Cmd.run cliCtx "git pull",
   Cmd.runFallback cliCtx
     ("venv/bin/alembic upgrade " ++ alembicRevision)
     ("venv/bin/alembic downgrade " ++ alembicRevision)]

/-- The `cd(env.deploy_codalab_worksheets_dir)` context of `_deploy`. -/
def worksheetsCtx : Ctx := ⟨[deployCodalabWorksheetsDir], [], []⟩

/-- The `cd(worksheets), cd('codalab')` context of `_deploy`. -/
def worksheetsCodalabCtx : Ctx := ⟨[deployCodalabWorksheetsDir, "codalab"], [], []⟩

/-- The `cd(cli), cd('codalab'), cd('bin')` context of `_deploy`. -/
def cliBinCtx : Ctx := ⟨[deployCodalabCliDir, "codalab", "bin"], [], []⟩

/-- The `_deploy()` core deploy sequence: update both checkouts, upload the
website config, regenerate and link server configs, conditionally install
the SSL files, configure the bundle server, migrate the database and run
the root-user bootstrap.  Lookups that the source interleaves with command
issuance are grouped per block; a failing lookup keeps the commands of the
completed blocks. -/
def deployCore (e : FabEnv) : TaskResult :=
  let gitCmds : List Cmd :=
    [Cmd.run worksheetsCtx "git fetch",
     Cmd.run worksheetsCtx ("git checkout " ++ e.gitCodalabTag),
     Cmd.run worksheetsCtx "git pull",
     Cmd.run worksheetsCtx "./setup.sh",
     Cmd.run cliCtx "git fetch",
     Cmd.run cliCtx ("git checkout " ++ e.gitCodalabCliTag),
     Cmd.run cliCtx "git pull",
     Cmd.run cliCtx "./setup.sh server"]
  match getWebsiteConfig e.cfg with
  | Except.error err => ⟨gitCmds, Except.error err⟩
  | Except.ok ws =>
    let genCmds := gitCmds ++
      [Cmd.putData ws ".codalab/website-config.json",
       Cmd.run worksheetsCodalabCtx "./manage config_gen",
       Cmd.sudo worksheetsCodalabCtx
         "ln -sf `pwd`/config/generated/nginx.conf /etc/nginx/sites-enabled/codalab.conf",
       Cmd.sudo worksheetsCodalabCtx
         "ln -sf `pwd`/config/generated/supervisor.conf /etc/supervisor/conf.d/codalab.conf"]
    if ¬ e.configured then
      ⟨genCmds, Except.error (Err.requireMissing "configuration")⟩
    else
      match (do
        let certInstalled ← getSslCertificateInstalledPath e.cfg
        let keyInstalled ← getSslCertificateKeyInstalledPath e.cfg
        if certInstalled.length > 0 ∧ keyInstalled.length > 0 then
          let certSrc ← getSslCertificatePath e.cfg
          let keySrc ← getSslCertificateKeyPath e.cfg
          Except.ok [Cmd.putFile certSrc certInstalled true,
                     Cmd.putFile keySrc keyInstalled true]
        else
          Except.ok [] : Except Err (List Cmd)) with
      | Except.error err => ⟨genCmds, Except.error err⟩
      | Except.ok sslCmds =>
        match (do
          let dbUser ← getBundleServiceDatabaseUser e.cfg
          let dbPassword ← getBundleServiceDatabasePassword e.cfg
          let dbName ← getBundleServiceDatabaseName e.cfg
          let emailInfo ← getEmailInfo e.cfg
          let emailHost ← lookupKey "host" emailInfo.host
          let emailUser ← lookupKey "user" emailInfo.user
          let emailPassword ← lookupKey "password" emailInfo.password
          let adminEmail ← getAdminEmail e.cfg
          let dbaPassword ← getDatabaseAdminPassword e.cfg
          Except.ok
            [Cmd.run cliBinCtx
               ("./cl config server/engine_url mysql://" ++ dbUser ++ ":" ++
                 dbPassword ++ "@localhost:3306/" ++ dbName),
             Cmd.run cliBinCtx ("./cl config email/host " ++ emailHost),
             Cmd.run cliBinCtx ("./cl config email/user " ++ emailUser),
             Cmd.run cliBinCtx ("./cl config email/password " ++ emailPassword),
             Cmd.run cliBinCtx ("./cl config server/admin_email " ++ adminEmail),
             Cmd.run cliBinCtx ("./cl config server/instance_name " ++ e.cfg.label),
             Cmd.run cliCtx "venv/bin/alembic upgrade head",
             Cmd.run cliCtx ("scripts/create-root-user.py " ++ dbaPassword)] :
          Except Err (List Cmd)) with
        | Except.error err => ⟨genCmds ++ sslCmds, Except.error err⟩
        | Except.ok tailCmds => ⟨genCmds ++ sslCmds ++ tailCmds, Except.ok e⟩

/-- The composite `deploy()` task: enter maintenance, stop the supervisor,
run the core deploy sequence, start the supervisor, exit maintenance. -/
def deploy (e : FabEnv) : TaskResult :=
  seqT (maintenance e "begin") (fun e1 =>
  seqT (supervisor e1 "stop") (fun e2 =>
  seqT (deployCore e2) (fun e3 =>
  seqT (supervisor e3 "start") (fun e4 =>
  maintenance e4 "end"))))

/-! ## Concrete configurations used by counterexamples and witnesses -/

/-- The spec's worked example: prefix `cl`, label `prod`, two instances,
SSH base port 2200. -/
def exampleConfig : DeploymentConfig :=
  { label := "prod"
    svcGlobal :=
      { servicePrefix := some "cl", certificate := none, vm := none
        email := none, adminEmail := none }
    svc :=
      { vm := some { osImage := none, count := some 2, roleSize := none, sshPort := some 2200 }
        git := none, gitBundles := none, database := none, ssl := none, django := none } }

/-- A fully populated configuration (no `ssl` block). -/
def fullConfig : DeploymentConfig :=
  { label := "prod"
    svcGlobal :=
      { servicePrefix := some "cl"
        certificate := some
          { algorithm := some "sha1", thumbprint := some "ab12", filename := some "svc.cer"
            keyFilename := some "svc.pem", format := some "pfx", password := some "certpw" }
        vm := some { username := some "azureuser", password := some "vmpass" }
        email := some { host := some "smtp.example.com", user := some "mailer", password := some "mailpw" }
        adminEmail := some "admin@example.com" }
    svc :=
      { vm := some { osImage := some "ubuntu", count := some 1, roleSize := some "Small", sshPort := some 2200 }
        git := some { user := some "codalab", repo := some "codalab-worksheets", tag := some "v1.0" }
        gitBundles := some { user := some "codalab", repo := some "codalab-cli", tag := some "v0.9" }
        database := some { adminPassword := some "dbapass", bundleDbName := some "bundles"
                           bundleUser := some "bundleuser", bundlePassword := some "bundlepw" }
        ssl := none
        django := some { configuration := some "Prod", secretKey := some "sk" } } }

/-- A configuration whose `ssl` block has a certificate file but an empty
key file: the installed certificate path is non-empty while the installed
key path is empty. -/
def certOnlyConfig : DeploymentConfig :=
  { label := "prod"
    svcGlobal :=
      { servicePrefix := some "cl", certificate := none, vm := none
        email := none, adminEmail := none }
    svc :=
      { vm := none, git := none, gitBundles := none, database := none
        ssl := some { filename := some "cert.pem", keyFilename := some "", rewriteHosts := none }
        django := none } }

/-- A configuration with every key absent. -/
def emptyConfig : DeploymentConfig :=
  { label := "prod"
    svcGlobal :=
      { servicePrefix := none, certificate := none, vm := none, email := none, adminEmail := none }
    svc :=
      { vm := none, git := none, gitBundles := none, database := none, ssl := none, django := none } }

/-- A configured Fabric environment over `fullConfig` with one web host. -/
def fullEnv : FabEnv :=
  { cfg := fullConfig
    roledefsWeb := ["clprod.cloudapp.net:2201"]
    gitCodalabTag := "v1.0"
    gitCodalabCliTag := "v0.9"
    djangoSettingsModule := "codalab.settings"
    djangoConfiguration := "Prod"
    configHttpPort := "80"
    configServerName := "clprod.cloudapp.net"
    shellEnvMap := []
    configured := true }

/-- `fullEnv` with two web hosts. -/
def twoHostEnv : FabEnv :=
  { fullEnv with roledefsWeb := ["clprod.cloudapp.net:2201", "clprod.cloudapp.net:2202"] }

/-- `fullEnv` with no web host. -/
def zeroHostEnv : FabEnv :=
  { fullEnv with roledefsWeb := [] }

/-! ## Claims -/

/-- C1: for every valid configuration (service prefix `p`, label `l`,
instance count `n`, SSH base port `b`), `getWebHostnames` returns exactly
`n` entries, the `i`-th (for `i` from 1 to `n`, ascending) being
`<p><l>.cloudapp.net:<b+i>`, so the ports are strictly increasing. -/
theorem getWebHostnames_spec (c : DeploymentConfig) (vm : VmInfo) (p l : String) (n b : Nat)
    (hp : c.svcGlobal.servicePrefix = some p) (hl : c.label = l)
    (hvm : c.svc.vm = some vm) (hn : vm.count = some n) (hb : vm.sshPort = some b) :
    getWebHostnames c =
      Except.ok ((List.range n).map (fun i =>
        p ++ l ++ ".cloudapp.net:" ++ toString (b + (i + 1)))) ∧
    (∀ hs, getWebHostnames c = Except.ok hs →
      hs.length = n ∧
      ∀ i, i < n → hs[i]? = some (p ++ l ++ ".cloudapp.net:" ++ toString (b + (i + 1)))) ∧
    List.Pairwise (fun x y => x < y) ((List.range n).map (fun i => b + (i + 1))) := by
  have hmain : getWebHostnames c =
      Except.ok ((List.range n).map (fun i =>
        p ++ l ++ ".cloudapp.net:" ++ toString (b + (i + 1)))) := by
    simp [getWebHostnames, getServiceName, getServicePrefix, getServiceInstanceCount,
      getServiceInstanceSshPort, lookupKey, hp, hl, hvm, hn, hb, bind, Except.bind,
      Functor.map, Except.map, pure, Except.pure, List.map_map, Function.comp,
      String.append_assoc]
  refine ⟨hmain, ?_, ?_⟩
  · intro hs h
    rw [hmain] at h
    obtain rfl : ((List.range n).map (fun i =>
        p ++ l ++ ".cloudapp.net:" ++ toString (b + (i + 1)))) = hs := Except.ok.inj h
    constructor
    · simp
    · intro i hi
      simp [List.getElem?_map, List.getElem?_range, hi]
  · exact (List.pairwise_lt_range n).map _ (fun i j hij => by omega)

/-- Witness for C1: the spec's example (prefix `cl`, label `prod`, count 2,
base port 2200) yields the two expected hostnames. -/
theorem getWebHostnames_spec_witness :
    getWebHostnames exampleConfig =
      Except.ok ["clprod.cloudapp.net:2201", "clprod.cloudapp.net:2202"] := by
  have h := getWebHostnames_spec exampleConfig
    { osImage := none, count := some 2, roleSize := none, sshPort := some 2200 }
    "cl" "prod" 2 2200 rfl rfl rfl rfl rfl
  exact h.1.trans (by decide)

/-- C2 counterexample: on a configuration whose `ssl` block has a
certificate file but an empty key file, the scheme is `https` although the
installed key path is empty, so the claimed "https iff both non-empty"
equivalence fails. -/
theorem bundleAuthScheme_not_iff_both :
    ¬ (bundleAuthScheme certOnlyConfig = Except.ok "https" ↔
       getSslCertificateInstalledPath certOnlyConfig ≠ Except.ok "" ∧
       getSslCertificateKeyInstalledPath certOnlyConfig ≠ Except.ok "") := by decide

/-- C2 as amended: the scheme computed by `getWebsiteConfig` is `https` iff
the installed SSL certificate path is non-empty; the installed key path is
not consulted. -/
theorem bundleAuthScheme_cert_only (c : DeploymentConfig) (cert : String)
    (h : getSslCertificateInstalledPath c = Except.ok cert) :
    bundleAuthScheme c = Except.ok (if cert.length > 0 then "https" else "http") := by
  unfold bundleAuthScheme
  rw [h]
  by_cases hc : cert.length > 0 <;>
    simp [hc, Bind.bind, Except.bind, pure, Except.pure]

/-- Witness for the amended C2: a non-empty installed certificate path gives
scheme `https` (on `certOnlyConfig`, whose key path is empty). -/
theorem bundleAuthScheme_cert_only_witness :
    bundleAuthScheme certOnlyConfig = Except.ok "https" := by
  have h := bundleAuthScheme_cert_only certOnlyConfig "/etc/ssl/certs/cert.pem" (by decide)
  exact h.trans (by decide)

/-- C3: `ALLOWED_HOSTS` is the configured rewrite-hosts list followed by the
single element `<serviceName>.cloudapp.net`, so it contains the primary
service hostname, and `SSL_ALLOWED_HOSTS` (a distinct field of the output
record) holds the identical list. -/
theorem getWebsiteConfig_allowed_hosts (c : DeploymentConfig) (sname : String) (w : WebsiteConfig)
    (hs : getServiceName c = Except.ok sname)
    (hw : getWebsiteConfig c = Except.ok w) :
    w.ALLOWED_HOSTS = getSslRewriteHosts c ++ [sname ++ ".cloudapp.net"] ∧
    (sname ++ ".cloudapp.net") ∈ w.ALLOWED_HOSTS ∧
    w.SSL_ALLOWED_HOSTS = w.ALLOWED_HOSTS := by
  unfold getWebsiteConfig allowedHosts at hw
  rw [hs] at hw
  cases hcert : getSslCertificateInstalledPath c with
  | error err => rw [hcert] at hw; simp [bind, Except.bind, pure, Except.pure] at hw
  | ok cert =>
    cases hkey : getSslCertificateKeyInstalledPath c with
    | error err => rw [hcert, hkey] at hw; simp [bind, Except.bind, pure, Except.pure] at hw
    | ok key =>
      cases hdj : getDjangoInfo c with
      | error err =>
        rw [hcert, hkey, hdj] at hw; simp [bind, Except.bind, pure, Except.pure] at hw
      | ok dj =>
        rw [hcert, hkey, hdj] at hw
        simp only [bind, Except.bind, pure, Except.pure] at hw
        obtain rfl := (Except.ok.inj hw).symm
        refine ⟨rfl, ?_, rfl⟩
        simp

/-- The website-config record that `getWebsiteConfig` produces on
`fullConfig`. -/
def fullWebsiteRecord : WebsiteConfig :=
  { ALLOWED_HOSTS := ["clprod.cloudapp.net"]
    SSL_PORT := 443
    SSL_CERTIFICATE := ""
    SSL_CERTIFICATE_KEY := ""
    SSL_ALLOWED_HOSTS := ["clprod.cloudapp.net"]
    django := { configuration := some "Prod", secretKey := some "sk" }
    DJANGO_USE_UWSGI := true }

/-- Witness for C3 on `fullConfig` (no rewrite hosts configured). -/
theorem getWebsiteConfig_allowed_hosts_witness :
    fullWebsiteRecord.ALLOWED_HOSTS =
      getSslRewriteHosts fullConfig ++ ["clprod" ++ ".cloudapp.net"] ∧
    ("clprod" ++ ".cloudapp.net") ∈ fullWebsiteRecord.ALLOWED_HOSTS ∧
    fullWebsiteRecord.SSL_ALLOWED_HOSTS = fullWebsiteRecord.ALLOWED_HOSTS :=
  getWebsiteConfig_allowed_hosts fullConfig "clprod" fullWebsiteRecord
    (by decide) (by decide)

/-- C4: with a single web host, `install_mysql` rejects any choice outside
`mysql`/`bundles_db`/`all` with a `ValueError` before any remote command,
and with `all` it performs the mysql-install block followed by the
bundles-db-creation block, in that order. -/
theorem install_mysql_choice_spec (e : FabEnv) (db : DatabaseInfo) (dba : String)
    (hconf : e.configured = true)
    (hweb : e.roledefsWeb.length = 1)
    (hdb : e.cfg.svc.database = some db)
    (hdba : db.adminPassword = some dba) :
    (∀ choice, choice ≠ "mysql" → choice ≠ "bundles_db" → choice ≠ "all" →
      install_mysql e choice =
        ⟨[], Except.error (Err.valueError
          ("Invalid choice: " ++ choice ++
           ". Valid choices are: 'build', 'web' or 'all'."))⟩) ∧
    install_mysql e "all" =
      ⟨mysqlInstallCmds dba ++
        bundlesDbCreateCmds dba (db.bundleDbName.getD "") (db.bundleUser.getD "")
          (db.bundlePassword.getD ""),
       Except.ok e⟩ := by
  constructor
  · intro choice h1 h2 h3
    simp [install_mysql, hconf, hweb, h1, h2, h3]
  · simp [install_mysql, hconf, hweb, getDatabaseAdminPassword,
      getBundleServiceDatabaseName, getBundleServiceDatabaseUser,
      getBundleServiceDatabasePassword, lookupKey, hdb, hdba,
      bind, Except.bind, pure, Except.pure]

/-- Witness for C4 on `fullEnv`: choice `bogus` is rejected with no
commands; choice `all` issues the install block then the create block. -/
theorem install_mysql_choice_spec_witness :
    install_mysql fullEnv "bogus" =
      ⟨[], Except.error (Err.valueError
        "Invalid choice: bogus. Valid choices are: 'build', 'web' or 'all'.")⟩ ∧
    install_mysql fullEnv "all" =
      ⟨mysqlInstallCmds "dbapass" ++
        bundlesDbCreateCmds "dbapass" "bundles" "bundleuser" "bundlepw",
       Except.ok fullEnv⟩ := by
  have h := install_mysql_choice_spec fullEnv
    { adminPassword := some "dbapass", bundleDbName := some "bundles"
      bundleUser := some "bundleuser", bundlePassword := some "bundlepw" }
    "dbapass" rfl rfl rfl rfl
  exact ⟨(h.1 "bogus" (by decide) (by decide) (by decide)).trans (by decide),
         h.2.trans (by decide)⟩

/-- C5: with more than one host in the web role, `install_mysql` with
choice `bundles_db` fails with the host-count error and issues zero remote
commands. -/
theorem install_mysql_multi_host (e : FabEnv)
    (hconf : e.configured = true) (hweb : 2 ≤ e.roledefsWeb.length) :
    install_mysql e "bundles_db" =
      ⟨[], Except.error
        (Err.exception "Task install_mysql requires exactly one web instance.")⟩ := by
  have hne : e.roledefsWeb.length ≠ 1 := by omega
  simp [install_mysql, hconf, hne]

/-- Witness for C5: two web hosts. -/
theorem install_mysql_multi_host_witness :
    install_mysql twoHostEnv "bundles_db" =
      ⟨[], Except.error
        (Err.exception "Task install_mysql requires exactly one web instance.")⟩ :=
  install_mysql_multi_host twoHostEnv rfl (by decide)

/-- C10: the exactly-one-web-host check of `install_mysql` runs for every
choice value and before the choice string is validated: any roster whose
size differs from one fails with the host-count error and zero remote
commands, even when the choice is also invalid. -/
theorem install_mysql_host_check_first (e : FabEnv) (choice : String)
    (hconf : e.configured = true) (hweb : e.roledefsWeb.length ≠ 1) :
    install_mysql e choice =
      ⟨[], Except.error
        (Err.exception "Task install_mysql requires exactly one web instance.")⟩ := by
  simp [install_mysql, hconf, hweb]

/-- Witness for C10: zero hosts together with an invalid choice still give
the host-count error. -/
theorem install_mysql_host_check_first_witness :
    install_mysql zeroHostEnv "bogus" =
      ⟨[], Except.error
        (Err.exception "Task install_mysql requires exactly one web instance.")⟩ :=
  install_mysql_host_check_first zeroHostEnv "bogus" rfl (by decide)

/-- Removing the entries with key `k` does not change a lookup for a
different key. -/
theorem find?_filter_ne (m : List (String × String)) (k k' : String) (h : k' ≠ k) :
    (m.filter (fun p => p.1 != k)).find? (fun p => p.1 == k') =
      m.find? (fun p => p.1 == k') := by
  induction m with
  | nil => rfl
  | cons hd tl ih =>
    by_cases h1 : hd.1 = k
    · have hb : (hd.1 != k) = false := by simp [h1]
      have hm : (hd.1 == k') = false := by
        simp only [beq_eq_false_iff_ne]
        rw [h1]
        exact Ne.symm h
      simp [List.filter_cons, hb, List.find?_cons, hm, ih]
    · have hb : (hd.1 != k) = true := by simp [h1]
      cases h2 : (hd.1 == k') with
      | true => simp [List.filter_cons, hb, List.find?_cons, h2]
      | false => simp [List.filter_cons, hb, List.find?_cons, h2, ih]

/-- Lookup after a set: the new value at the written key, the old lookup
elsewhere. -/
theorem envLookup_envSet (m : List (String × String)) (k v k' : String) :
    envLookup (envSet m k v) k' = if k' = k then some v else envLookup m k' := by
  unfold envLookup envSet
  by_cases h : k' = k
  · simp [List.find?_cons, h]
  · have hb : (k == k') = false := by
      simp only [beq_eq_false_iff_ne]
      exact Ne.symm h
    simp [List.find?_cons, hb, h, find?_filter_ne m k k' h]

/-- C6: `maintenance` with a mode other than `begin`/`end` exits the
process with status 1 and issues zero remote commands; a valid mode maps to
its flag (`"1"` for `begin`, `"0"` for `end`), which is exported in the
shell environment of the `config_gen` command, after which nginx is
restarted. -/
theorem maintenance_spec (e : FabEnv) (mode : String) (hconf : e.configured = true) :
    (mode ≠ "begin" → mode ≠ "end" → maintenance e mode = ⟨[], Except.error (Err.exit 1)⟩) ∧
    (∀ flag, (mode = "begin" ∧ flag = "1") ∨ (mode = "end" ∧ flag = "0") →
      maintenance e mode =
        ⟨[Cmd.run ⟨[deployCodalabWorksheetsDir, "codalab"], [venvActivate],
            setupEnvMap ({ e with shellEnvMap := envSet e.shellEnvMap "MAINTENANCE_MODE" flag })⟩
            "python manage.py config_gen",
          Cmd.sudo Ctx.plain "/etc/init.d/nginx restart"],
         Except.ok { e with shellEnvMap := setupEnvMap ({ e with shellEnvMap := envSet e.shellEnvMap "MAINTENANCE_MODE" flag }) }⟩ ∧
      envLookup
        (setupEnvMap ({ e with shellEnvMap := envSet e.shellEnvMap "MAINTENANCE_MODE" flag }))
        "MAINTENANCE_MODE" = some flag) := by
  constructor
  · intro h1 h2
    have hb1 : (("begin" : String) == mode) = false := beq_eq_false_iff_ne.mpr (Ne.symm h1)
    have hb2 : (("end" : String) == mode) = false := beq_eq_false_iff_ne.mpr (Ne.symm h2)
    have hm : envLookup maintenanceModes mode = none := by
      simp [maintenanceModes, envLookup, List.find?, hb1, hb2]
    simp [maintenance, hm]
  · rintro flag (⟨hm, hf⟩ | ⟨hm, hf⟩) <;> subst hm <;> subst hf
    · refine ⟨?_, ?_⟩
      · have hmm : envLookup maintenanceModes "begin" = some "1" := rfl
        simp [maintenance, hmm, hconf, setup_env, nginx_restart]
      · simp [setupEnvMap, envLookup_envSet]
    · refine ⟨?_, ?_⟩
      · have hmm : envLookup maintenanceModes "end" = some "0" := rfl
        simp [maintenance, hmm, hconf, setup_env, nginx_restart]
      · simp [setupEnvMap, envLookup_envSet]

/-- Witness for C6 on `fullEnv`: mode `bogus` exits with status 1 and no
commands; mode `begin` exports `MAINTENANCE_MODE=1` and runs `config_gen`
then the nginx restart. -/
theorem maintenance_spec_witness :
    maintenance fullEnv "bogus" = ⟨[], Except.error (Err.exit 1)⟩ ∧
    (maintenance fullEnv "begin" =
      ⟨[Cmd.run ⟨[deployCodalabWorksheetsDir, "codalab"], [venvActivate],
          setupEnvMap ({ fullEnv with
            shellEnvMap := envSet fullEnv.shellEnvMap "MAINTENANCE_MODE" "1" })⟩
          "python manage.py config_gen",
        Cmd.sudo Ctx.plain "/etc/init.d/nginx restart"],
       Except.ok { fullEnv with shellEnvMap := setupEnvMap ({ fullEnv with shellEnvMap := envSet fullEnv.shellEnvMap "MAINTENANCE_MODE" "1" }) }⟩ ∧
     envLookup
       (setupEnvMap ({ fullEnv with
         shellEnvMap := envSet fullEnv.shellEnvMap "MAINTENANCE_MODE" "1" }))
       "MAINTENANCE_MODE" = some "1") := by
  have h1 := maintenance_spec fullEnv "bogus" rfl
  have h2 := maintenance_spec fullEnv "begin" rfl
  exact ⟨h1.1 (by decide) (by decide), h2.2 "1" (Or.inl ⟨rfl, rfl⟩)⟩

/-- C7: when each stage succeeds, the composite `deploy` task issues
exactly the maintenance-begin commands, then the supervisor-stop commands,
then the core deploy sequence, then the supervisor-start commands, then the
maintenance-end commands — none skipped, none reordered. -/
theorem deploy_order (e e1 e2 e3 e4 e5 : FabEnv) (t1 t2 t3 t4 t5 : List Cmd)
    (h1 : maintenance e "begin" = ⟨t1, Except.ok e1⟩)
    (h2 : supervisor e1 "stop" = ⟨t2, Except.ok e2⟩)
    (h3 : deployCore e2 = ⟨t3, Except.ok e3⟩)
    (h4 : supervisor e3 "start" = ⟨t4, Except.ok e4⟩)
    (h5 : maintenance e4 "end" = ⟨t5, Except.ok e5⟩) :
    deploy e = ⟨t1 ++ t2 ++ t3 ++ t4 ++ t5, Except.ok e5⟩ := by
  simp [deploy, seqT, h1, h2, h3, h4, h5]

/-- The environment a task result ends in, with a default for the error
case; used to spell out the intermediate environments of `deploy`. -/
def afterOutcome (r : TaskResult) (d : FabEnv) : FabEnv :=
  match r.outcome with
  | Except.ok x => x
  | Except.error _ => d

/-- Stage 1 of `deploy fullEnv`: maintenance `begin`. -/
def deployStep1 : TaskResult := maintenance fullEnv "begin"

/-- Stage 2 of `deploy fullEnv`: supervisor `stop`. -/
def deployStep2 : TaskResult := supervisor (afterOutcome deployStep1 fullEnv) "stop"

/-- Stage 3 of `deploy fullEnv`: the core deploy sequence. -/
def deployStep3 : TaskResult := deployCore (afterOutcome deployStep2 fullEnv)

/-- Stage 4 of `deploy fullEnv`: supervisor `start`. -/
def deployStep4 : TaskResult := supervisor (afterOutcome deployStep3 fullEnv) "start"

/-- Stage 5 of `deploy fullEnv`: maintenance `end`. -/
def deployStep5 : TaskResult := maintenance (afterOutcome deployStep4 fullEnv) "end"

/-- Witness for C7: on `fullEnv` every stage succeeds and the deploy trace
is the concatenation of the five stage traces in order. -/
theorem deploy_order_witness :
    deploy fullEnv =
      ⟨deployStep1.trace ++ deployStep2.trace ++ deployStep3.trace ++
        deployStep4.trace ++ deployStep5.trace,
       Except.ok (afterOutcome deployStep5 fullEnv)⟩ :=
  deploy_order fullEnv
    (afterOutcome deployStep1 fullEnv) (afterOutcome deployStep2 fullEnv)
    (afterOutcome deployStep3 fullEnv) (afterOutcome deployStep4 fullEnv)
    (afterOutcome deployStep5 fullEnv)
    deployStep1.trace deployStep2.trace deployStep3.trace
    deployStep4.trace deployStep5.trace
    (by decide) (by decide) (by decide) (by decide) (by decide)

/-- C8: `migrate_db` issues, in order, `git fetch`, `git checkout` of the
given tag (or the pinned default when no tag is supplied), `git pull`, and
one shell command `alembic upgrade rev || alembic downgrade rev`, which
attempts the upgrade and, exactly when it fails, falls back to a single
downgrade to the same revision. -/
theorem migrate_db_spec (e : FabEnv) (rev : String) (gitTag : Option String)
    (htag : ∀ t, gitTag = some t → t ≠ "") :
    migrate_db e rev gitTag =
      [Cmd.run cliCtx "git fetch",
       Cmd.run cliCtx ("git checkout " ++
         (match gitTag with | some t => t | none => e.gitCodalabCliTag)),
       Cmd.run cliCtx "git pull",
       Cmd.runFallback cliCtx ("venv/bin/alembic upgrade " ++ rev)
         ("venv/bin/alembic downgrade " ++ rev)] ∧
    (Cmd.runFallback cliCtx ("venv/bin/alembic upgrade " ++ rev)
        ("venv/bin/alembic downgrade " ++ rev)).shellText =
      some ("venv/bin/alembic upgrade " ++ rev ++ " || " ++
        ("venv/bin/alembic downgrade " ++ rev)) ∧
    (∀ oracle : String → Bool,
      (oracle ("venv/bin/alembic upgrade " ++ rev) = true →
        attemptsUnder oracle (Cmd.runFallback cliCtx
            ("venv/bin/alembic upgrade " ++ rev) ("venv/bin/alembic downgrade " ++ rev)) =
          [("venv/bin/alembic upgrade " ++ rev)]) ∧
      (oracle ("venv/bin/alembic upgrade " ++ rev) = false →
        attemptsUnder oracle (Cmd.runFallback cliCtx
            ("venv/bin/alembic upgrade " ++ rev) ("venv/bin/alembic downgrade " ++ rev)) =
          [("venv/bin/alembic upgrade " ++ rev), ("venv/bin/alembic downgrade " ++ rev)] ∧
        succeedsUnder oracle (Cmd.runFallback cliCtx
            ("venv/bin/alembic upgrade " ++ rev) ("venv/bin/alembic downgrade " ++ rev)) =
          oracle ("venv/bin/alembic downgrade " ++ rev))) := by
  refine ⟨?_, ?_, ?_⟩
  · cases gitTag with
    | none => simp [migrate_db, pyOr]
    | some t =>
      have ht : t ≠ "" := htag t rfl
      have hlen : t.length ≠ 0 := by
        intro h0
        apply ht
        cases t with
        | mk l =>
          have hd : l = [] := List.length_eq_zero.mp h0
          subst hd
          rfl
      simp [migrate_db, pyOr, hlen]
  · rfl
  · intro oracle
    refine ⟨?_, ?_⟩
    · intro h
      simp [attemptsUnder, h]
    · intro h
      refine ⟨?_, ?_⟩
      · simp [attemptsUnder, h]
      · simp [succeedsUnder, h]

/-- Witness for C8: revision `head` with no tag on `fullEnv`, and an oracle
under which the upgrade fails, so the downgrade is attempted once. -/
theorem migrate_db_spec_witness :
    migrate_db fullEnv "head" none =
      [Cmd.run cliCtx "git fetch",
       Cmd.run cliCtx "git checkout v0.9",
       Cmd.run cliCtx "git pull",
       Cmd.runFallback cliCtx "venv/bin/alembic upgrade head"
         "venv/bin/alembic downgrade head"] ∧
    attemptsUnder (fun _ => false)
        (Cmd.runFallback cliCtx "venv/bin/alembic upgrade head"
          "venv/bin/alembic downgrade head") =
      ["venv/bin/alembic upgrade head", "venv/bin/alembic downgrade head"] := by
  have h := migrate_db_spec fullEnv "head" none (fun t ht => by cases ht)
  have h2 := (h.2.2 (fun _ => false)).2 rfl
  exact ⟨h.1.trans (by decide), h2.1.trans (by decide)⟩

/-- C9: absent required keys surface as `KeyError` lookup failures naming
the key, while the documented optional keys — the SSL settings
(certificate path, key path, rewrite-hosts) and the bundle-service git and
database settings (`user`, `repo`, `tag`, `bundle_db_name`, `bundle_user`,
`bundle_password`) — default to the empty string (empty list for
rewrite-hosts) when the key the accessor tests is absent. -/
theorem config_optional_keys (c : DeploymentConfig) :
    (c.svcGlobal.servicePrefix = none →
      getServicePrefix c = Except.error (Err.keyError "prefix")) ∧
    (c.svcGlobal.email = none →
      getEmailInfo c = Except.error (Err.keyError "email")) ∧
    (c.svcGlobal.adminEmail = none →
      getAdminEmail c = Except.error (Err.keyError "admin-email")) ∧
    (c.svcGlobal.certificate = none →
      getServiceCertificateKeyFilename c = Except.error (Err.keyError "certificate")) ∧
    (c.svc.vm = none →
      getServiceInstanceCount c = Except.error (Err.keyError "vm") ∧
      getServiceInstanceSshPort c = Except.error (Err.keyError "vm")) ∧
    (∀ vm, c.svc.vm = some vm → vm.count = none →
      getServiceInstanceCount c = Except.error (Err.keyError "count")) ∧
    (c.svc.git = none →
      getGitTag c = Except.error (Err.keyError "git")) ∧
    (∀ g, c.svc.git = some g → g.tag = none →
      getGitTag c = Except.error (Err.keyError "tag")) ∧
    (c.svc.django = none →
      getDjangoInfo c = Except.error (Err.keyError "django")) ∧
    (c.svc.database = none →
      getDatabaseAdminPassword c = Except.error (Err.keyError "database")) ∧
    (∀ db, c.svc.database = some db → db.adminPassword = none →
      getDatabaseAdminPassword c = Except.error (Err.keyError "admin_password")) ∧
    (c.svc.ssl = none →
      getSslCertificatePath c = Except.ok "" ∧
      getSslCertificateKeyPath c = Except.ok "" ∧
      getSslRewriteHosts c = []) ∧
    (∀ s, c.svc.ssl = some s → s.rewriteHosts = none →
      getSslRewriteHosts c = []) ∧
    (c.svc.gitBundles = none →
      getBundleServiceGitUser c = Except.ok "" ∧
      getBundleServiceGitRepo c = Except.ok "" ∧
      getBundleServiceGitTag c = Except.ok "") ∧
    (∀ db, c.svc.database = some db →
      (db.bundleDbName = none → getBundleServiceDatabaseName c = Except.ok "") ∧
      (db.bundleUser = none → getBundleServiceDatabaseUser c = Except.ok "") ∧
      (db.bundlePassword = none → getBundleServiceDatabasePassword c = Except.ok "")) := by
  refine ⟨?_, ?_, ?_, ?_, ?_, ?_, ?_, ?_, ?_, ?_, ?_, ?_, ?_, ?_, ?_⟩
  · intro h; simp [getServicePrefix, lookupKey, h]
  · intro h; simp [getEmailInfo, lookupKey, h]
  · intro h; simp [getAdminEmail, lookupKey, h]
  · intro h
    simp [getServiceCertificateKeyFilename, lookupKey, h, bind, Except.bind]
  · intro h
    constructor
    · simp [getServiceInstanceCount, lookupKey, h, bind, Except.bind]
    · simp [getServiceInstanceSshPort, lookupKey, h, bind, Except.bind]
  · intro vm hvm hc
    simp [getServiceInstanceCount, lookupKey, hvm, hc, bind, Except.bind]
  · intro h; simp [getGitTag, lookupKey, h, bind, Except.bind]
  · intro g hg ht; simp [getGitTag, lookupKey, hg, ht, bind, Except.bind]
  · intro h; simp [getDjangoInfo, lookupKey, h]
  · intro h; simp [getDatabaseAdminPassword, lookupKey, h, bind, Except.bind]
  · intro db hdb ha
    simp [getDatabaseAdminPassword, lookupKey, hdb, ha, bind, Except.bind]
  · intro h
    refine ⟨?_, ?_, ?_⟩
    · simp [getSslCertificatePath, h]
    · simp [getSslCertificateKeyPath, h]
    · simp [getSslRewriteHosts, h]
  · intro s hs hr; simp [getSslRewriteHosts, hs, hr]
  · intro h
    refine ⟨?_, ?_, ?_⟩
    · simp [getBundleServiceGitUser, h]
    · simp [getBundleServiceGitRepo, h]
    · simp [getBundleServiceGitTag, h]
  · intro db hdb
    refine ⟨?_, ?_, ?_⟩
    · intro h
      simp [getBundleServiceDatabaseName, lookupKey, hdb, h, bind, Except.bind,
        pure, Except.pure]
    · intro h
      simp [getBundleServiceDatabaseUser, lookupKey, hdb, h, bind, Except.bind,
        pure, Except.pure]
    · intro h
      simp [getBundleServiceDatabasePassword, lookupKey, hdb, h, bind, Except.bind,
        pure, Except.pure]

/-- Witness for C9 on `emptyConfig` (every key absent) and on
`certOnlyConfig` (an `ssl` block without `rewrite-hosts`): required keys
raise, optional keys default to empty values. -/
theorem config_optional_keys_witness :
    getServicePrefix emptyConfig = Except.error (Err.keyError "prefix") ∧
    getEmailInfo emptyConfig = Except.error (Err.keyError "email") ∧
    getServiceInstanceCount emptyConfig = Except.error (Err.keyError "vm") ∧
    getGitTag emptyConfig = Except.error (Err.keyError "git") ∧
    getDatabaseAdminPassword emptyConfig = Except.error (Err.keyError "database") ∧
    getDjangoInfo emptyConfig = Except.error (Err.keyError "django") ∧
    getSslCertificatePath emptyConfig = Except.ok "" ∧
    getSslCertificateKeyPath emptyConfig = Except.ok "" ∧
    getSslRewriteHosts emptyConfig = [] ∧
    getBundleServiceGitUser emptyConfig = Except.ok "" ∧
    getSslRewriteHosts certOnlyConfig = [] := by
  obtain ⟨hpfx, hemail, _hadmin, _hcert, hvm, _hcount, hgit, _htag, hdjango,
    hdbase, _hdba, hssl, _hrw, hbundles, _hdb⟩ := config_optional_keys emptyConfig
  obtain ⟨_, _, _, _, _, _, _, _, _, _, _, _, hrw2, _, _⟩ :=
    config_optional_keys certOnlyConfig
  exact ⟨hpfx rfl, hemail rfl, (hvm rfl).1, hgit rfl, hdbase rfl, hdjango rfl,
    (hssl rfl).1, (hssl rfl).2.1, (hssl rfl).2.2, (hbundles rfl).1,
    hrw2 { filename := some "cert.pem", keyFilename := some "", rewriteHosts := none }
      rfl rfl⟩

end CodalabDeploy
